import Mathlib

/-!
Shallow embedding of the deals-extractor repository (src/app.py,
src/amazon_scraper.py, src/noon_scraper.py).

Pure helpers of the Python code become Lean functions; the HTTP layer,
BeautifulSoup and `json.loads` are external collaborators, so a parsed page
is represented by a record of the query results the code reads from it, and
the JSON-keys parser is passed in as a function argument (`none` models a
raised exception).  Python strings are `String`, Python `None`-able strings
are `Option String`.  The float values produced by price arithmetic are
decimal literals whose arithmetic here is exact, so they are modelled as
exact scaled integers (`Dec`), with rational statements connecting them to
the intended real values.
-/

namespace DealsExtractor

/-- `listStartsWith p l`: `p` is a prefix of `l` (Python `str.startswith`,
on exploded characters). -/
def listStartsWith : List Char → List Char → Bool
  | [], _ => true
  | _ :: _, [] => false
  | a :: as, b :: bs => a == b && listStartsWith as bs

/-- `listHasSub n h`: the needle `n` occurs contiguously inside `h`
(Python's `n in h` on strings). -/
def listHasSub (needle : List Char) : List Char → Bool
  | [] => listStartsWith needle []
  | c :: cs => listStartsWith needle (c :: cs) || listHasSub needle cs

/-- Python `needle in hay` for strings. -/
def strHasSub (hay needle : String) : Bool :=
  listHasSub needle.data hay.data

/-- Python `s.startswith(p)`. -/
def strStarts (s p : String) : Bool :=
  listStartsWith p.data s.data

/-- Python `s.lower()` (ASCII, which covers every string this code lowers). -/
def strLower (s : String) : String :=
  String.mk (s.data.map Char.toLower)

/-- Characters stripped by Python `str.strip()` on the strings this code
handles (ASCII whitespace plus the non-breaking space `\xa0`). -/
def isPySpace (c : Char) : Bool :=
  c.isWhitespace || c == Char.ofNat 160

/-- Python `str.strip()`. -/
def pyStrip (s : String) : String :=
  String.mk (((s.data.dropWhile isPySpace).reverse.dropWhile isPySpace).reverse)

/-- The part of a character list before the first occurrence of `sep`
(`sep` non-empty). -/
def takeBeforeSubAux (sep : List Char) : List Char → List Char
  | [] => []
  | c :: cs => if listStartsWith sep (c :: cs) then [] else c :: takeBeforeSubAux sep cs

/-- Python `s.split(sep)[0]` for a non-empty separator. -/
def takeBeforeSub (sep s : String) : String :=
  String.mk (takeBeforeSubAux sep.data s.data)

/-- Left-to-right non-overlapping replacement, fuelled by the input length
so that recursion is structural. -/
def replaceSubAux (pat repl : List Char) : ℕ → List Char → List Char
  | _, [] => []
  | 0, s => s
  | fuel + 1, c :: cs =>
    if listStartsWith pat (c :: cs) then
      repl ++ replaceSubAux pat repl fuel ((c :: cs).drop pat.length)
    else c :: replaceSubAux pat repl fuel cs

/-- Python `s.replace(pat, repl)` for a non-empty pattern. -/
def strReplace (s pat repl : String) : String :=
  if pat = "" then s else String.mk (replaceSubAux pat.data repl.data s.data.length s.data)

/-- Python truthiness-based `a or b` for an optional string versus a string
default (`None` and `""` are falsy). -/
def pyOrStr (a : Option String) (b : String) : String :=
  match a with
  | some s => if s = "" then b else s
  | none => b

/-- Python truthiness-based `a or b` on two optional strings. -/
def pyOrOpt (a b : Option String) : Option String :=
  match a with
  | some s => if s = "" then b else some s
  | none => b

/-- Digits of a decimal string folded into a natural number
(`int`/`float` on a run of ASCII digits). -/
def digitsToNat (cs : List Char) : ℕ :=
  cs.foldl (fun n c => 10 * n + (c.toNat - 48)) 0

/-- The first maximal run of digits in `s`
(`re.search(r'(\d+)', s)`, group 1), or `none` if `s` has no digit. -/
def firstDigitRun (s : String) : Option String :=
  let cs := s.data.dropWhile (fun c => !c.isDigit)
  if cs.isEmpty then none else some (String.mk (cs.takeWhile Char.isDigit))

/-- `re.sub(r'[^\d.]', '', s)`: keep only digits and the decimal point. -/
def stripNonNumeric (s : String) : List Char :=
  s.data.filter (fun c => c.isDigit || c == '.')

/-- A non-negative decimal number `num / 10 ^ exp`, the exact value of a
parsed price string (Python holds it as a float; every value reaching the
arithmetic below is such a decimal). -/
structure Dec where
  num : ℕ
  exp : ℕ
deriving Repr, DecidableEq

/-- The rational value a `Dec` stands for. -/
def Dec.toRat (d : Dec) : ℚ :=
  (d.num : ℚ) / (10 : ℚ) ^ d.exp

/-- Decimal value of a character list made of digits and at most one dot:
integer part joined with fractional part. -/
def decValueOfStripped (cs : List Char) : Dec :=
  let intPart := cs.takeWhile (fun c => c ≠ '.')
  let fracPart := (cs.dropWhile (fun c => c ≠ '.')).drop 1
  ⟨digitsToNat intPart * 10 ^ fracPart.length + digitsToNat fracPart, fracPart.length⟩

/-- Python `float()` applied to a string of digits and dots: it parses iff
the string holds at least one digit and at most one dot. -/
def pyFloatOfStripped (cs : List Char) : Option Dec :=
  if cs.any Char.isDigit ∧ cs.count '.' ≤ 1 then some (decValueOfStripped cs) else none

/-- `AmazonDealsScraper.extract_price_numeric` (src/amazon_scraper.py):
empty or sentinel input gives `None`; otherwise every character except
digits and the decimal point is removed and the remainder parsed as a
number, any parse failure being swallowed to `None`. -/
def extract_price_numeric (price_str : String) : Option Dec :=
  if price_str = "" ∨ price_str = "Not found" then none
  else pyFloatOfStripped (stripNonNumeric price_str)

/-- Round `a / b` (with `b` positive) to the nearest integer, ties to even:
the rounding Python's float formatting performs on the exact decimal values
appearing in this program. -/
def roundHalfEvenScaled (a : ℤ) (b : ℕ) : ℤ :=
  let f := Int.fdiv a b
  let r := a - f * b
  if 2 * r < b then f
  else if (b : ℤ) < 2 * r then f + 1
  else if f % 2 = 0 then f else f + 1

/-- Render an integer count of hundredths as a fixed-point numeral with two
decimals (the digits of Python `f"{x:.2f}"`). -/
def formatHundredths (n : ℤ) : String :=
  let sign := if n < 0 then "-" else ""
  let m := n.natAbs
  sign ++ toString (m / 100) ++ "." ++
    (if m % 100 < 10 then "0" ++ toString (m % 100) else toString (m % 100))

/-- Round a rational to the nearest integer, ties to even (specification
counterpart of `roundHalfEvenScaled`). -/
def roundHalfEvenQ (q : ℚ) : ℤ :=
  let f := ⌊q⌋
  let r := q - (f : ℚ)
  if r < 1 / 2 then f
  else if 1 / 2 < r then f + 1
  else if f % 2 = 0 then f else f + 1

/-- Python `f"{q:.2f}"` on the exact rational value (specification side). -/
def formatQ2 (q : ℚ) : String :=
  formatHundredths (roundHalfEvenQ (q * 100))

/-- The string built by method 4 of the discounted-price chain:
`f"AED {original * (1 - pct/100):.2f}"`, computed on the exact decimal. -/
def computeDiscountedPrice (v : Dec) (pct : ℕ) : String :=
  "AED " ++ formatHundredths (roundHalfEvenScaled ((v.num : ℤ) * (100 - (pct : ℤ))) (10 ^ v.exp))

/-- One scraped deal record: the dict built by
`AmazonDealsScraper.extract_deal_details` and by the noon branch of
`app.py`; every key is always present, with the `"Not found"` sentinel for
unresolved fields. -/
structure DealData where
  url : String
  title : String
  brand : String
  category : String
  original_price : String
  discounted_price : String
  discount_percentage : String
  expiry_date : String
  description : String
  product_image : String
deriving Repr, DecidableEq

/-- `is_valid_amazon_deal` (src/app.py): both price fields resolved and the
discounted price mentions AED. -/
def is_valid_amazon_deal (deal : DealData) : Bool :=
  deal.original_price != "Not found" && deal.discounted_price != "Not found" &&
    strHasSub deal.discounted_price "AED"

/-- `is_valid_noon_deal` (src/app.py): both price fields truthy (non-empty),
resolved, and distinct. -/
def is_valid_noon_deal (deal : DealData) : Bool :=
  deal.original_price != "" && deal.original_price != "Not found" &&
    deal.discounted_price != "" && deal.discounted_price != "Not found" &&
    deal.original_price != deal.discounted_price

/-- A character allowed in a URL scheme by `urllib.parse`. -/
def schemeCharOk (c : Char) : Bool :=
  c.isAlphanum || c == '+' || c == '-' || c == '.'

/-- The scheme-splitting step of `urllib.parse.urlparse`: if the text up to
the first `:` is a well-formed scheme it is split off and lowercased,
otherwise the scheme is empty and the string untouched. -/
def splitScheme (url : String) : String × String :=
  match url.data.findIdx? (· = ':') with
  | some i =>
    if 0 < i ∧ (url.data.take i).all schemeCharOk ∧
        (match url.data.head? with
         | some c => c.isAlpha
         | none => false) = true then
      (String.mk ((url.data.take i).map Char.toLower), String.mk (url.data.drop (i + 1)))
    else ("", url)
  | none => ("", url)

/-- The netloc step of `urllib.parse.urlparse` applied after scheme
splitting: a `//`-led host up to the next `/`, `?` or `#`; `none` models the
`ValueError` raised on a mismatched IPv6 bracket. -/
def netlocOf (rest : String) : Option String :=
  if listStartsWith ['/', '/'] rest.data then
    let n := (rest.data.drop 2).takeWhile (fun c => c ≠ '/' ∧ c ≠ '?' ∧ c ≠ '#')
    if (n.contains '[') ≠ (n.contains ']') then none else some (String.mk n)
  else some ""

/-- Model of `urllib.parse.urlparse` restricted to the two components this
program reads: `(scheme, netloc)`, with `none` for a raised `ValueError`. -/
def urlparse (url : String) : Option (String × String) :=
  let sr := splitScheme url
  match netlocOf sr.2 with
  | some netloc => some (sr.1, netloc)
  | none => none

/-- `detect_platform` (src/app.py): lowercased host substring match, amazon
checked first; any parse exception is swallowed to `None`. -/
def detect_platform (url : String) : Option String :=
  match urlparse url with
  | none => none
  | some sr =>
    let domain := strLower sr.2
    if strHasSub domain "amazon" then some "amazon"
    else if strHasSub domain "noon" then some "noon"
    else none

/-- The attributes the code reads off the `#imgTagWrapperId img` element. -/
structure ImgAttrs where
  src : Option String := none
  dataOldHires : Option String := none
  dataDynamicImage : Option String := none

/-- The query results `AmazonDealsScraper.extract_deal_details` reads from a
parsed product page, one field per CSS query in source order; element texts
are already `get_text(strip=True)` results (a present element with empty
text is `some ""`). -/
structure AmazonSoup where
  productTitle : Option String := none
  bylineInfo : Option String := none
  breadcrumb1 : List String := []
  breadcrumb2 : List String := []
  breadcrumb3 : List String := []
  originalPriceElem : Option String := none
  savingsPercentage : Option String := none
  aokOffscreens : List String := []
  priceSymbol : Option String := none
  priceWhole : Option String := none
  priceFraction : Option String := none
  offscreenPrices : List String := []
  expiryElems : List (Option String) := []
  descElems1 : List String := []
  descElems2 : List String := []
  descElems3 : List String := []
  imgTag : Option ImgAttrs := none

/-- Method 1 of the discounted-price chain: first `.aok-offscreen` text that
is truthy, mentions AED and whose lowercase form mentions both "with" and
"savings"; its part before (case-sensitive) "with", stripped, with
non-breaking spaces replaced. -/
def discounted_price_method1 (soup : AmazonSoup) : Option String :=
  (soup.aokOffscreens.find? (fun t =>
      t != "" && strHasSub t "AED" && strHasSub (strLower t) "with" &&
        strHasSub (strLower t) "savings")).map
    (fun t => String.mk ((pyStrip (takeBeforeSub "with" t)).data.map
      (fun c => if c == Char.ofNat 160 then ' ' else c)))

/-- Method 2: assemble from symbol/whole/fraction sub-elements; the symbol
defaults to "AED" and the fraction to "00" when the element is absent. -/
def discounted_price_method2 (soup : AmazonSoup) : Option String :=
  match soup.priceWhole with
  | none => none
  | some w =>
    let symbol := match soup.priceSymbol with
      | some t => t
      | none => "AED"
    let whole := pyStrip (String.mk (w.data.filter (fun c => c ≠ ',')))
    let fraction := match soup.priceFraction with
      | some t => t
      | none => "00"
    some (symbol ++ " " ++ whole ++ "." ++ fraction)

/-- Method 3: first non-struck-through `.a-offscreen` price text that is
truthy, mentions AED and is longer than 3 characters. -/
def discounted_price_method3 (soup : AmazonSoup) : Option String :=
  soup.offscreenPrices.find? (fun t =>
    t != "" && strHasSub t "AED" && decide (3 < t.length))

/-- Method 4: when both the original price and the discount string are
resolved, the original parses to a truthy (non-zero) number and the
discount string holds a digit run, compute
`f"AED {original * (1 - pct/100):.2f}"`. -/
def discounted_price_method4 (original discount : String) : Option String :=
  if original != "Not found" && discount != "Not found" then
    match extract_price_numeric original, firstDigitRun discount with
    | some v, some ds =>
      if v.num ≠ 0 then some (computeDiscountedPrice v (digitsToNat ds.data)) else none
    | _, _ => none
  else none

/-- The sequential four-method block of `extract_deal_details` that fills
`deal_data["discounted_price"]`: each method body runs only while the field
still holds the sentinel. -/
def amazon_discounted_price_of (soup : AmazonSoup) : String :=
  let dp1 := (discounted_price_method1 soup).getD "Not found"
  let dp2 := if dp1 = "Not found" then (discounted_price_method2 soup).getD dp1 else dp1
  let dp3 := if dp2 = "Not found" then (discounted_price_method3 soup).getD dp2 else dp2
  if dp3 = "Not found" then
    (discounted_price_method4 (soup.originalPriceElem.getD "Not found")
        (soup.savingsPercentage.getD "Not found")).getD dp3
  else dp3

/-- The description block: first selector whose element list is non-empty
and whose first five items contain a non-trivial (length > 5) text yields
the join; otherwise the chain continues. -/
def descriptionOf : List (List String) → String
  | [] => "Not found"
  | elems :: rest =>
    if elems ≠ [] then
      let descriptions := (elems.take 5).filter (fun t => t != "" && decide (5 < t.length))
      if descriptions ≠ [] then String.intercalate " | " descriptions else descriptionOf rest
    else descriptionOf rest

/-- The product-image block: `src or data-old-hires or data-a-dynamic-image`
under Python truthiness; a JSON-looking value is parsed for its first key
(`jparse s = none` models a raised `json.loads` exception, swallowed by
`except: pass`, which leaves `img_url` holding the raw attribute text). -/
def resolve_product_image (jparse : String → Option (List String))
    (img : Option ImgAttrs) (current : String) : String :=
  match img with
  | none => current
  | some a =>
    let img_url := pyOrOpt a.src (pyOrOpt a.dataOldHires a.dataDynamicImage)
    let img_url := match img_url with
      | some u =>
        if u != "" && strStarts u "\x7b" then
          match jparse u with
          | some (k :: _) => some k
          | some [] => none
          | none => some u
        else some u
      | none => none
    match img_url with
    | some u => if u ≠ "" then u else current
    | none => current

/-- `AmazonDealsScraper.extract_deal_details` (src/amazon_scraper.py) after
a successful fetch: the record built from a parsed page, every field
independently resolved and defaulting to the `"Not found"` sentinel. -/
def extract_deal_details (jparse : String → Option (List String))
    (product_url : String) (soup : AmazonSoup) : DealData :=
  let title := soup.productTitle.getD "Not found"
  let brand := match soup.bylineInfo with
    | some t => pyStrip (strReplace (strReplace (strReplace t "Visit the" "") "Brand:" "") "Store" "")
    | none => "Not found"
  let breadcrumb := if soup.breadcrumb1 ≠ [] then soup.breadcrumb1
    else if soup.breadcrumb2 ≠ [] then soup.breadcrumb2
    else soup.breadcrumb3
  let category := if breadcrumb ≠ [] then
      let categories := breadcrumb.filter (fun t => t != "")
      if categories ≠ [] then String.intercalate " > " categories else "Not found"
    else "Not found"
  let original_price := soup.originalPriceElem.getD "Not found"
  let discount_percentage := soup.savingsPercentage.getD "Not found"
  let discounted_price := amazon_discounted_price_of soup
  let expiry_date := (soup.expiryElems.findSome? id).getD "Not found"
  let description := descriptionOf [soup.descElems1, soup.descElems2, soup.descElems3]
  let product_image := resolve_product_image jparse soup.imgTag "Not found"
  ⟨product_url, title, brand, category, original_price, discounted_price,
    discount_percentage, expiry_date, description, product_image⟩

/-- Outcome of `AmazonDealsScraper.get_page`: the returned page (or `None`),
the backoff sleeps performed between attempts, and how many network
requests were issued.  `outcomes k` is the result of the `k`-th
`session.get` (`none` = any `requests.RequestException`: timeout,
connection error, or non-2xx raised by `raise_for_status`). -/
structure FetchTrace where
  result : Option String
  delays : List ℕ
  attempts : ℕ
deriving Repr, DecidableEq

/-- The retry loop of `get_page`: `rem` attempts remain, the next having
index `k`; a failed non-final attempt sleeps 5 seconds, a failed final
attempt returns `None`. -/
def get_page_go (outcomes : ℕ → Option String) : ℕ → ℕ → FetchTrace
  | 0, _ => ⟨none, [], 0⟩
  | rem + 1, k =>
    match outcomes k with
    | some page => ⟨some page, [], 1⟩
    | none =>
      if rem = 0 then ⟨none, [], 1⟩
      else
        let t := get_page_go outcomes rem (k + 1)
        ⟨t.result, 5 :: t.delays, t.attempts + 1⟩

/-- `AmazonDealsScraper.get_page` (src/amazon_scraper.py): three attempts,
a constant 5-second sleep between attempts, no URL validation of any kind
(the `url` argument is passed straight to `session.get`); the politeness
sleep after a success is not a backoff delay and is not recorded. -/
def get_page (url : String) (outcomes : ℕ → Option String) : FetchTrace :=
  let _ := url
  get_page_go outcomes 3 0

/-- Result of `NoonProductScraper.fetch_page`: the parsed page, or the
`ValueError` it raises. -/
inductive NoonFetchResult where
  | page (p : String)
  | validationError (msg : String)
  | fetchError (msg : String)
deriving Repr, DecidableEq

/-- Outcome trace of `fetch_page`, mirroring `FetchTrace`. -/
structure NoonFetchTrace where
  result : NoonFetchResult
  delays : List ℕ
  attempts : ℕ
deriving Repr, DecidableEq

/-- The retry loop of `fetch_page`: before attempt `k > 0` it sleeps
`2 * k` seconds; after the last failure it raises the last error message.
`outcomes k` is the `k`-th `session.get` (`Except.error e` = timeout,
connection error, non-2xx, or any other exception, with `e` the
`last_error` message recorded for it). -/
def fetch_page_go (outcomes : ℕ → Except String String) : ℕ → ℕ → String → NoonFetchTrace
  | 0, _, lastError => ⟨.fetchError lastError, [], 0⟩
  | rem + 1, k, lastError =>
    let _ := lastError
    let delay : List ℕ := if 0 < k then [2 * k] else []
    match outcomes k with
    | .ok page => ⟨.page page, delay, 1⟩
    | .error e =>
      let t := fetch_page_go outcomes rem (k + 1) e
      ⟨t.result, delay ++ t.delays, t.attempts + 1⟩

/-- `NoonProductScraper.fetch_page` (src/noon_scraper.py): the URL is
validated first (scheme and netloc both non-empty, any `urlparse` exception
re-raised as a validation error) before any network attempt; then up to
three attempts with progressive 2s, 4s sleeps. -/
def fetch_page (url : String) (outcomes : ℕ → Except String String) : NoonFetchTrace :=
  match urlparse url with
  | none => ⟨.validationError "URL validation failed: Invalid IPv6 URL", [], 0⟩
  | some sr =>
    if sr.1 = "" ∨ sr.2 = "" then
      ⟨.validationError "URL validation failed: Invalid URL format", [], 0⟩
    else
      fetch_page_go outcomes 3 0 "Failed to fetch webpage after multiple attempts"

/-- A list of delays is strictly increasing. -/
def strictlyIncreasing : List ℕ → Bool
  | [] => true
  | [_] => true
  | a :: b :: rest => decide (a < b) && strictlyIncreasing (b :: rest)

/-- The per-platform scraping status dict of src/app.py. -/
structure ScrapingStatus where
  is_scraping : Bool
  progress : ℕ
  total : ℕ
  deals_scraped : ℕ
  deals_requested : ℕ
  message : String
deriving Repr, DecidableEq

/-- `scrape_amazon_deals_background` (src/app.py), from the point where the
deal links have been collected (`deal_links` is the `extract_deal_links`
result; `details link` is the `extract_deal_details` result for `link`,
`none` when the fetch failed); returns the final status and the final
contents of `amazon_deals_storage` (initially `storage`).  The transient
status mutations during the loop are not modelled, only the terminal
snapshot. -/
def scrape_amazon_deals_background (deal_links : List String)
    (details : String → Option DealData) (storage : List DealData)
    (max_deals : Option ℕ) : ScrapingStatus × List DealData :=
  if deal_links.isEmpty then
    (⟨false, 0, 0, 0, max_deals.getD 0, "No deals found on the page"⟩, storage)
  else
    let links := match max_deals with
      | some n => if n = 0 then deal_links else deal_links.take n
      | none => deal_links
    let all_deals := links.filterMap (fun link =>
      match details link with
      | some d => if is_valid_amazon_deal d then some d else none
      | none => none)
    let valid_deals := all_deals.filter is_valid_amazon_deal
    let requested := match max_deals with
      | some n => if n = 0 then links.length else n
      | none => links.length
    (⟨false, links.length, links.length, valid_deals.length, requested,
      "Successfully scraped " ++ toString valid_deals.length ++
        " valid deals out of " ++ toString requested ++ " requested"⟩,
      valid_deals)

/-- `ProductCard` (src/noon_scraper.py). -/
structure ProductCard where
  url : String
  title : Option String := none
  image : Option String := none
  offered_price : Option String := none
  original_price : Option String := none
deriving Repr, DecidableEq

/-- `Size` (src/noon_scraper.py). -/
structure SizeOption where
  label : String
  link : Option String := none
  is_active : Bool := false
  is_disabled : Bool := false
  is_out_of_stock : Bool := false
deriving Repr, DecidableEq

/-- `ProductDetail` (src/noon_scraper.py). -/
structure ProductDetail where
  image : Option String := none
  title : Option String := none
  offered_price : Option String := none
  original_price : Option String := none
  profit : Option String := none
  description : Option String := none
  thumbnails : List String := []
  sizes : List SizeOption := []
deriving Repr, DecidableEq

/-- The deal dict the noon background job builds from a card and its detail
page, including the AED prefixing of un-prefixed prices. -/
def noon_deal_from (card : ProductCard) (pd : ProductDetail) : DealData :=
  let original_price := pyOrStr pd.original_price (pyOrStr card.original_price "Not found")
  let discounted_price := pyOrStr pd.offered_price (pyOrStr card.offered_price "Not found")
  let original_price := if original_price ≠ "Not found" ∧ ¬ strStarts original_price "AED" then
      "AED " ++ original_price
    else original_price
  let discounted_price := if discounted_price ≠ "Not found" ∧ ¬ strStarts discounted_price "AED" then
      "AED " ++ discounted_price
    else discounted_price
  { url := card.url
    title := pyOrStr pd.title (pyOrStr card.title "Not found")
    brand := "Not found"
    category := "Not found"
    original_price := original_price
    discounted_price := discounted_price
    discount_percentage := pyOrStr pd.profit "Not found"
    expiry_date := "Not found"
    description := pyOrStr pd.description "Not found"
    product_image := pyOrStr pd.image (pyOrStr card.image "Not found") }

/-- `scrape_noon_deals_background` (src/app.py), from the point where the
product cards have been collected (`details url` is the
`scrape_product_detail` result, `none` when it raised — the per-item
`except` logs and continues); returns the final status and the final
contents of `noon_deals_storage`. -/
def scrape_noon_deals_background (product_cards : List ProductCard)
    (details : String → Option ProductDetail) (storage : List DealData)
    (max_deals : Option ℕ) : ScrapingStatus × List DealData :=
  if product_cards.isEmpty then
    (⟨false, 0, 0, 0, max_deals.getD 0, "No deals found on the page"⟩, storage)
  else
    let cards := match max_deals with
      | some n => if n = 0 then product_cards else product_cards.take n
      | none => product_cards
    let all_deals := cards.filterMap (fun card =>
      match details card.url with
      | some pd =>
        let deal := noon_deal_from card pd
        if is_valid_noon_deal deal then some deal else none
      | none => none)
    let valid_deals := all_deals.filter is_valid_noon_deal
    let requested := match max_deals with
      | some n => if n = 0 then cards.length else n
      | none => cards.length
    (⟨false, cards.length, cards.length, valid_deals.length, requested,
      "Successfully scraped " ++ toString valid_deals.length ++
        " valid deals out of " ++ toString requested ++ " requested"⟩,
      valid_deals)

/-- `get_deals` (src/app.py): copy the platform's in-memory storage and
re-filter it through the platform's validity predicate on every read. -/
def get_deals (platform : String) (amazon_deals_storage noon_deals_storage : List DealData) :
    List DealData :=
  if platform = "noon" then noon_deals_storage.filter is_valid_noon_deal
  else amazon_deals_storage.filter is_valid_amazon_deal

/-- `load_existing_deals_to_memory` (src/app.py) for one platform: extend
the in-memory storage with the snapshot file's records, unfiltered;
`none` models a missing or corrupt file (storage left unchanged). -/
def load_existing_deals_to_memory (storage : List DealData)
    (file_deals : Option (List DealData)) : List DealData :=
  storage ++ file_deals.getD []

/-! ## Theorems settling the claims -/

/-- C1, counterexample: the amazon validity predicate accepts a record whose
original and discounted prices are equal, and the noon validity predicate
accepts a record whose discounted price carries no AED marker — so neither
predicate is the claimed conjunction "resolved ∧ distinct ∧ AED". -/
theorem validity_predicate_counterexample :
    is_valid_amazon_deal ⟨"u", "t", "b", "c", "AED 10.00", "AED 10.00", "10%", "n", "d", "i"⟩
        = true
    ∧ ("AED 10.00" : String) = "AED 10.00"
    ∧ is_valid_noon_deal ⟨"u", "t", "b", "c", "10", "20", "10%", "n", "d", "i"⟩ = true
    ∧ strHasSub "20" "AED" = false := by decide

/-- C1, amended: each platform's validity predicate is characterised by its
own conjunction — amazon requires both price fields resolved and an AED
marker in the discounted price (distinctness is not checked); noon requires
both price fields non-empty, resolved, and distinct (no currency check). -/
theorem validity_predicates_spec (d : DealData) :
    (is_valid_amazon_deal d = true ↔
      d.original_price ≠ "Not found" ∧ d.discounted_price ≠ "Not found" ∧
        strHasSub d.discounted_price "AED" = true)
    ∧ (is_valid_noon_deal d = true ↔
      d.original_price ≠ "" ∧ d.original_price ≠ "Not found" ∧
        d.discounted_price ≠ "" ∧ d.discounted_price ≠ "Not found" ∧
        d.original_price ≠ d.discounted_price) := by
  constructor <;> simp [is_valid_amazon_deal, is_valid_noon_deal, and_assoc]

/-- C4: the numeric price parser maps "AED 1,234.50" to the decimal
1234.50 (= 2469/2), maps the sentinel and the empty string to `none`, and on
every other input returns exactly the decimal read off the digits-and-dot
characters when they form a well-formed number (at least one digit, at most
one dot) and `none` otherwise — it is a total function, so no exception
escapes the helper. -/
theorem extract_price_numeric_spec :
    extract_price_numeric "AED 1,234.50" = some ⟨123450, 2⟩
    ∧ Dec.toRat ⟨123450, 2⟩ = 2469 / 2
    ∧ extract_price_numeric "Not found" = none
    ∧ extract_price_numeric "" = none
    ∧ (∀ s : String, s ≠ "" → s ≠ "Not found" →
        extract_price_numeric s =
          if (stripNonNumeric s).any Char.isDigit ∧ (stripNonNumeric s).count '.' ≤ 1 then
            some (decValueOfStripped (stripNonNumeric s))
          else none) := by
  refine ⟨by decide, by norm_num [Dec.toRat], by decide, by decide, ?_⟩
  intro s h1 h2
  simp [extract_price_numeric, h1, h2, pyFloatOfStripped]

/-- C4, witness: a malformed numeric ("12.3.4" has two dots) parses to
`none`. -/
theorem extract_price_numeric_spec_witness :
    extract_price_numeric "12.3.4" = none :=
  (extract_price_numeric_spec.2.2.2.2 "12.3.4" (by decide) (by decide)).trans (by decide)

/-- C7, counterexample: the terminal status message of a zero-item job run
is "No deals found on the page", not the claimed literal "no items found"
(both platforms). -/
theorem empty_job_message_counterexample :
    (scrape_amazon_deals_background [] (fun _ => none) [] none).1.message
        = "No deals found on the page"
    ∧ (scrape_noon_deals_background [] (fun _ => none) [] none).1.message
        = "No deals found on the page"
    ∧ ("No deals found on the page" : String) ≠ "no items found" := by decide

/-- C7, amended: a job run whose list-collection step yields zero items ends
in a terminal non-running status with message "No deals found on the page",
progress, total and scraped counts zero, requested count `max_deals or 0`,
and the platform's result store completely unchanged — for the background
job of each platform. -/
theorem empty_job_spec (detailsA : String → Option DealData)
    (detailsN : String → Option ProductDetail)
    (storageA storageN : List DealData) (max_deals : Option ℕ) :
    scrape_amazon_deals_background [] detailsA storageA max_deals =
        (⟨false, 0, 0, 0, max_deals.getD 0, "No deals found on the page"⟩, storageA)
    ∧ scrape_noon_deals_background [] detailsN storageN max_deals =
        (⟨false, 0, 0, 0, max_deals.getD 0, "No deals found on the page"⟩, storageN) :=
  ⟨rfl, rfl⟩

/-- C9: `detect_platform` classifies by substring match on the lowercased
host, checking "amazon" first (so a host containing both substrings yields
amazon), returns `None` when the host has neither substring, and returns
`None` when URL parsing raises; it is a total function of the URL string. -/
theorem detect_platform_spec (url : String) :
    (∀ scheme netloc : String, urlparse url = some (scheme, netloc) →
      (strHasSub (strLower netloc) "amazon" = true → detect_platform url = some "amazon")
      ∧ (strHasSub (strLower netloc) "amazon" = false →
          strHasSub (strLower netloc) "noon" = false → detect_platform url = none))
    ∧ (urlparse url = none → detect_platform url = none) := by
  constructor
  · intro scheme netloc h
    constructor
    · intro ha
      simp [detect_platform, h, ha]
    · intro ha hn
      simp [detect_platform, h, ha, hn]
  · intro h
    simp [detect_platform, h]

/-- C9, witness: a host containing both "noon" and "amazon" classifies as
amazon; a host with neither classifies as unknown; a URL on which parsing
raises (mismatched IPv6 bracket) classifies as unknown. -/
theorem detect_platform_spec_witness :
    detect_platform "https://noon.amazon.ae/gp" = some "amazon"
    ∧ detect_platform "https://example.com/x" = none
    ∧ detect_platform "http://[::1" = none := by
  refine ⟨?_, ?_, ?_⟩
  · exact ((detect_platform_spec "https://noon.amazon.ae/gp").1 "https" "noon.amazon.ae"
      (by decide)).1 (by decide)
  · exact ((detect_platform_spec "https://example.com/x").1 "https" "example.com"
      (by decide)).2 (by decide) (by decide)
  · exact (detect_platform_spec "http://[::1").2 (by decide)

/-- C10: every record returned by the deals query satisfies the platform's
validity predicate, even when the in-memory storage was hydrated unfiltered
from a snapshot file — the query re-filters on every read. -/
theorem get_deals_only_valid (platform : String)
    (amazonStorage noonStorage : List DealData)
    (amazonFile noonFile : Option (List DealData)) (d : DealData)
    (h : d ∈ get_deals platform
        (load_existing_deals_to_memory amazonStorage amazonFile)
        (load_existing_deals_to_memory noonStorage noonFile)) :
    (platform = "noon" → is_valid_noon_deal d = true)
    ∧ (platform ≠ "noon" → is_valid_amazon_deal d = true) := by
  unfold get_deals at h
  by_cases hp : platform = "noon"
  · rw [if_pos hp] at h
    exact ⟨fun _ => (List.mem_filter.mp h).2, fun hne => absurd hp hne⟩
  · rw [if_neg hp] at h
    exact ⟨fun he => absurd he hp, fun _ => (List.mem_filter.mp h).2⟩

/-- C10, witness: a valid record hydrated from a snapshot file alongside an
invalid one is returned by the amazon query and satisfies the amazon
predicate. -/
theorem get_deals_only_valid_witness :
    (("amazon" : String) = "noon" →
      is_valid_noon_deal ⟨"u", "t", "b", "c", "AED 100.00", "AED 80.00", "20%", "n", "d", "i"⟩
        = true)
    ∧ (("amazon" : String) ≠ "noon" →
      is_valid_amazon_deal ⟨"u", "t", "b", "c", "AED 100.00", "AED 80.00", "20%", "n", "d", "i"⟩
        = true) :=
  get_deals_only_valid "amazon" [] []
    (some [⟨"u", "t", "b", "c", "AED 100.00", "AED 80.00", "20%", "n", "d", "i"⟩,
           ⟨"u2", "t", "b", "c", "Not found", "Not found", "20%", "n", "d", "i"⟩]) none
    ⟨"u", "t", "b", "c", "AED 100.00", "AED 80.00", "20%", "n", "d", "i"⟩ (by decide)

/-- C8, counterexample: when the only image attribute is a JSON-looking
value on which parsing raises, the swallowed failure leaves `img_url`
holding the raw attribute text, and the product-image field is set to that
text — it does not stay at the sentinel. -/
theorem product_image_malformed_json_counterexample :
    (extract_deal_details (fun _ => none) "u"
        { imgTag := some { dataDynamicImage := some "\x7bbad json" } }).product_image
      = "\x7bbad json"
    ∧ ("\x7bbad json" : String) ≠ "Not found" := by decide

/-- C8, amended: when the chosen image attribute value starts with "{" and
parsing it as JSON fails, the failure is swallowed and the product-image
field is set to the raw attribute value itself (which is truthy, so the
final assignment fires); no field-level failure propagates out of detail
extraction. -/
theorem product_image_malformed_json_spec (jparse : String → Option (List String))
    (url : String) (soup : AmazonSoup) (s : String)
    (himg : soup.imgTag = some { src := none, dataOldHires := none, dataDynamicImage := some s })
    (hne : s ≠ "") (hbr : strStarts s "\x7b" = true) (hj : jparse s = none) :
    (extract_deal_details jparse url soup).product_image = s := by
  simp [extract_deal_details, resolve_product_image, himg, pyOrOpt, hne, hbr, hj]

/-- C8, witness: concrete malformed-JSON attribute value. -/
theorem product_image_malformed_json_spec_witness :
    (extract_deal_details (fun _ => none) "w"
        { imgTag := some { dataDynamicImage := some "\x7bx" } }).product_image = "\x7bx" :=
  product_image_malformed_json_spec (fun _ => none) "w" _ "\x7bx" rfl (by decide) (by decide) rfl

/-- C6, counterexample: the amazon fetcher performs no URL validation — on a
URL with neither scheme nor host it still issues a network request (one
attempt here, since the first attempt succeeds), not zero. -/
theorem get_page_no_validation_counterexample :
    urlparse "not-a-url" = some ("", "")
    ∧ (get_page "not-a-url" (fun _ => some "<html>")).attempts = 1
    ∧ (1 : ℕ) ≠ 0 := by decide

/-- C6, amended: only the noon fetcher validates the URL before any network
attempt — on a malformed URL (missing scheme or host, or a parse error) it
returns a validation failure having issued zero network requests — while
the amazon fetcher issues at least one network request for every URL. -/
theorem fetch_url_validation_spec (url : String) (outA : ℕ → Option String)
    (outN : ℕ → Except String String)
    (h : ∀ scheme netloc : String, urlparse url = some (scheme, netloc) →
        scheme = "" ∨ netloc = "") :
    ((fetch_page url outN).attempts = 0
      ∧ ∃ m, (fetch_page url outN).result = NoonFetchResult.validationError m)
    ∧ 0 < (get_page url outA).attempts := by
  constructor
  · unfold fetch_page
    cases hu : urlparse url with
    | none => simp
    | some sr =>
      have hor : sr.1 = "" ∨ sr.2 = "" := h sr.1 sr.2 (by rw [hu])
      simp [hor]
  · cases h0 : outA 0 <;> simp [get_page, get_page_go, h0]

/-- C6, witness: the concrete malformed URL "not-a-url". -/
theorem fetch_url_validation_spec_witness :
    ((fetch_page "not-a-url" (fun _ => Except.error "t")).attempts = 0
      ∧ ∃ m, (fetch_page "not-a-url" (fun _ => Except.error "t")).result
          = NoonFetchResult.validationError m)
    ∧ 0 < (get_page "not-a-url" (fun _ => some "h")).attempts :=
  fetch_url_validation_spec "not-a-url" (fun _ => some "h") (fun _ => Except.error "t")
    (fun scheme netloc hu => by
      rw [show urlparse "not-a-url" = some ("", "") from by decide] at hu
      injection hu with hp
      exact Or.inl (congrArg Prod.fst hp).symm)

/-- C5, counterexample: on transient failures the amazon fetcher's backoff
delays are a constant 5 seconds, 5 seconds — not strictly increasing. -/
theorem get_page_constant_backoff_counterexample :
    (get_page "https://www.amazon.ae/gp/deals" (fun _ => none)).delays = [5, 5]
    ∧ strictlyIncreasing [5, 5] = false
    ∧ (get_page "https://www.amazon.ae/gp/deals" (fun _ => none)).result = none := by decide

/-- C5, amended: both fetchers retry transient failures up to 3 attempts and
surface a failure only after all 3 attempts fail (amazon returns `None`,
noon raises); the noon fetcher's backoff delays (2s then 4s) are strictly
increasing, while the amazon fetcher waits a constant 5 seconds between
attempts. -/
theorem fetch_retry_spec (url : String) (outA : ℕ → Option String)
    (outN : ℕ → Except String String) (scheme netloc : String)
    (hu : urlparse url = some (scheme, netloc)) (hs : scheme ≠ "") (hn : netloc ≠ "") :
    ((get_page url outA).result = none ↔ outA 0 = none ∧ outA 1 = none ∧ outA 2 = none)
    ∧ (∀ d ∈ (get_page url outA).delays, d = 5)
    ∧ strictlyIncreasing (fetch_page url outN).delays = true
    ∧ ((∃ p, (fetch_page url outN).result = NoonFetchResult.page p) ↔
        (outN 0).isOk = true ∨ (outN 1).isOk = true ∨ (outN 2).isOk = true) := by
  have hcond : ¬((scheme, netloc).1 = "" ∨ (scheme, netloc).2 = "") := by
    simp [hs, hn]
  refine ⟨?_, ?_, ?_, ?_⟩
  · cases h0 : outA 0 <;> cases h1 : outA 1 <;> cases h2 : outA 2 <;>
      simp [get_page, get_page_go, h0, h1, h2]
  · cases h0 : outA 0 <;> cases h1 : outA 1 <;> cases h2 : outA 2 <;>
      simp [get_page, get_page_go, h0, h1, h2]
  · cases h0 : outN 0 <;> cases h1 : outN 1 <;> cases h2 : outN 2 <;>
      simp [fetch_page, hu, hcond, fetch_page_go, h0, h1, h2, strictlyIncreasing]
  · cases h0 : outN 0 <;> cases h1 : outN 1 <;> cases h2 : outN 2 <;>
      simp [fetch_page, hu, hcond, fetch_page_go, h0, h1, h2, Except.isOk, Except.toBool]

/-- C5, witness: with every attempt failing, the amazon fetcher surfaces
`None`; with a valid URL the noon fetcher's delays are strictly
increasing. -/
theorem fetch_retry_spec_witness :
    (get_page "https://www.amazon.ae/gp" (fun _ => none)).result = none
    ∧ strictlyIncreasing
        (fetch_page "https://www.amazon.ae/gp" (fun _ => Except.error "x")).delays = true := by
  have h := fetch_retry_spec "https://www.amazon.ae/gp" (fun _ => none)
    (fun _ => Except.error "x") "https" "www.amazon.ae" (by decide) (by decide) (by decide)
  exact ⟨h.1.mpr ⟨rfl, rfl, rfl⟩, h.2.2.1⟩

/-- The discounted-price field of an extracted record is exactly the
four-method block's result. -/
theorem extract_deal_details_discounted_price (jparse : String → Option (List String))
    (url : String) (soup : AmazonSoup) :
    (extract_deal_details jparse url soup).discounted_price =
      amazon_discounted_price_of soup := rfl

/-- C2: the discounted-price field is resolved by the ordered four-step
chain — (1) split a price-with-savings text, (2) assemble from
symbol/whole/fraction parts, (3) scan non-struck-through containers,
(4) compute from original price and discount — where each later step is
attempted only if every earlier step left the field at the sentinel, and if
all steps leave it there the field remains "Not found". -/
theorem discounted_price_chain_spec (jparse : String → Option (List String))
    (url : String) (soup : AmazonSoup) :
    (∀ v, discounted_price_method1 soup = some v → v ≠ "Not found" →
      (extract_deal_details jparse url soup).discounted_price = v)
    ∧ ((discounted_price_method1 soup).getD "Not found" = "Not found" →
        ∀ v, discounted_price_method2 soup = some v → v ≠ "Not found" →
        (extract_deal_details jparse url soup).discounted_price = v)
    ∧ ((discounted_price_method1 soup).getD "Not found" = "Not found" →
        (discounted_price_method2 soup).getD "Not found" = "Not found" →
        ∀ v, discounted_price_method3 soup = some v → v ≠ "Not found" →
        (extract_deal_details jparse url soup).discounted_price = v)
    ∧ ((discounted_price_method1 soup).getD "Not found" = "Not found" →
        (discounted_price_method2 soup).getD "Not found" = "Not found" →
        (discounted_price_method3 soup).getD "Not found" = "Not found" →
        ∀ v, discounted_price_method4 (soup.originalPriceElem.getD "Not found")
            (soup.savingsPercentage.getD "Not found") = some v → v ≠ "Not found" →
        (extract_deal_details jparse url soup).discounted_price = v)
    ∧ ((discounted_price_method1 soup).getD "Not found" = "Not found" →
        (discounted_price_method2 soup).getD "Not found" = "Not found" →
        (discounted_price_method3 soup).getD "Not found" = "Not found" →
        (discounted_price_method4 (soup.originalPriceElem.getD "Not found")
            (soup.savingsPercentage.getD "Not found")).getD "Not found" = "Not found" →
        (extract_deal_details jparse url soup).discounted_price = "Not found") := by
  rw [extract_deal_details_discounted_price]
  refine ⟨?_, ?_, ?_, ?_, ?_⟩
  · intro v h1 hv
    simp [amazon_discounted_price_of, h1, hv]
  · intro hm1 v h2 hv
    simp [amazon_discounted_price_of, hm1, h2, hv]
  · intro hm1 hm2 v h3 hv
    simp [amazon_discounted_price_of, hm1, hm2, h3, hv]
  · intro hm1 hm2 hm3 v h4 hv
    simp [amazon_discounted_price_of, hm1, hm2, hm3, h4, hv]
  · intro hm1 hm2 hm3 hm4
    simp [amazon_discounted_price_of, hm1, hm2, hm3, hm4]

/-- C2, witness: with method 1 failing, method 2 assembles the price. -/
theorem discounted_price_chain_spec_witness :
    (extract_deal_details (fun _ => none) "u"
        { priceWhole := some "25", priceFraction := some "99" }).discounted_price
      = "AED 25.99" :=
  ((discounted_price_chain_spec (fun _ => none) "u"
      { priceWhole := some "25", priceFraction := some "99" }).2.1
    (by decide) "AED 25.99" (by decide) (by decide))

/-- Scaled-integer rounding agrees with rational half-even rounding. -/
theorem roundHalfEvenQ_intCast_div_natCast (a : ℤ) (b : ℕ) (hb : 0 < b) :
    roundHalfEvenQ ((a : ℚ) / (b : ℚ)) = roundHalfEvenScaled a b := by
  have hbz : ((b : ℤ)) ≠ 0 := by exact_mod_cast hb.ne'
  have hbq : (0 : ℚ) < (b : ℚ) := by exact_mod_cast hb
  have hfd : Int.fdiv a (b : ℤ) = a / (b : ℤ) := Int.fdiv_eq_ediv a (by exact_mod_cast hb.le)
  have hfl : ⌊(a : ℚ) / (b : ℚ)⌋ = a / (b : ℤ) := Rat.floor_intCast_div_natCast a b
  have hr : a - a / (b : ℤ) * (b : ℤ) = a % (b : ℤ) := by
    rw [Int.emod_def]; ring
  have key : (a : ℚ) / (b : ℚ) - ((a / (b : ℤ) : ℤ) : ℚ) = ((a % (b : ℤ) : ℤ) : ℚ) / (b : ℚ) := by
    rw [Int.emod_def]
    push_cast
    field_simp
  have h1 : ((a : ℚ) / (b : ℚ) - ((a / (b : ℤ) : ℤ) : ℚ) < 1 / 2) ↔
      (2 * (a % (b : ℤ)) < (b : ℤ)) := by
    rw [key, div_lt_iff₀ hbq]
    constructor
    · intro h
      have : 2 * ((a % (b : ℤ) : ℤ) : ℚ) < (b : ℚ) := by linarith
      exact_mod_cast this
    · intro h
      have : 2 * ((a % (b : ℤ) : ℤ) : ℚ) < (b : ℚ) := by exact_mod_cast h
      linarith
  have h2 : ((1 : ℚ) / 2 < (a : ℚ) / (b : ℚ) - ((a / (b : ℤ) : ℤ) : ℚ)) ↔
      ((b : ℤ) < 2 * (a % (b : ℤ))) := by
    rw [key, lt_div_iff₀ hbq]
    constructor
    · intro h
      have : (b : ℚ) < 2 * ((a % (b : ℤ) : ℤ) : ℚ) := by linarith
      exact_mod_cast this
    · intro h
      have : (b : ℚ) < 2 * ((a % (b : ℤ) : ℤ) : ℚ) := by exact_mod_cast h
      linarith
  simp only [roundHalfEvenQ, roundHalfEvenScaled, hfd, hfl, hr, h1, h2]

/-- Half-even rounding of an integer is the integer. -/
theorem roundHalfEvenQ_intCast (n : ℤ) : roundHalfEvenQ (n : ℚ) = n := by
  simp only [roundHalfEvenQ, Int.floor_intCast, sub_self]
  norm_num

/-- Method 4's computed string is the spec-side formatted value
`f"AED {original * (1 - pct/100):.2f}"` on the exact rational. -/
theorem computeDiscountedPrice_eq (v : Dec) (pct : ℕ) :
    computeDiscountedPrice v pct
      = "AED " ++ formatQ2 (v.toRat * (1 - (pct : ℚ) / 100)) := by
  unfold computeDiscountedPrice formatQ2
  congr 2
  rw [← roundHalfEvenQ_intCast_div_natCast ((v.num : ℤ) * (100 - (pct : ℤ))) (10 ^ v.exp)
    (pow_pos (by norm_num) _)]
  congr 1
  have h10 : ((10 : ℚ)) ^ v.exp ≠ 0 := by positivity
  unfold Dec.toRat
  push_cast
  field_simp
  ring

/-- C3, counterexample: with an original price of "AED 0.00" and discount
"20% off", the first three strategies fail and both fields are resolved,
yet the code leaves the sentinel (Python truthiness: the parsed value 0.0
is falsy), while the claimed formula yields "AED 0.00". -/
theorem discounted_price_zero_original_counterexample :
    discounted_price_method1
        { originalPriceElem := some "AED 0.00", savingsPercentage := some "20% off" } = none
    ∧ discounted_price_method2
        { originalPriceElem := some "AED 0.00", savingsPercentage := some "20% off" } = none
    ∧ discounted_price_method3
        { originalPriceElem := some "AED 0.00", savingsPercentage := some "20% off" } = none
    ∧ (extract_deal_details (fun _ => none) "u"
        { originalPriceElem := some "AED 0.00", savingsPercentage := some "20% off" }).original_price
      = "AED 0.00"
    ∧ (extract_deal_details (fun _ => none) "u"
        { originalPriceElem := some "AED 0.00", savingsPercentage := some "20% off" }).discount_percentage
      = "20% off"
    ∧ extract_price_numeric "AED 0.00" = some ⟨0, 2⟩
    ∧ firstDigitRun "20% off" = some "20"
    ∧ (extract_deal_details (fun _ => none) "u"
        { originalPriceElem := some "AED 0.00", savingsPercentage := some "20% off" }).discounted_price
      = "Not found"
    ∧ "AED " ++ formatQ2 (Dec.toRat ⟨0, 2⟩ * (1 - (20 : ℚ) / 100)) = "AED 0.00"
    ∧ ("Not found" : String) ≠ "AED 0.00" := by
  refine ⟨by decide, by decide, by decide, by decide, by decide, by decide, by decide,
    by decide, ?_, by decide⟩
  have hz : Dec.toRat ⟨0, 2⟩ * (1 - (20 : ℚ) / 100) = ((0 : ℤ) : ℚ) := by
    norm_num [Dec.toRat]
  rw [hz]
  unfold formatQ2
  rw [show (((0 : ℤ) : ℚ) * 100) = ((0 : ℤ) : ℚ) by norm_num, roundHalfEvenQ_intCast]
  decide

/-- C3, amended: when the first three discounted-price strategies fail,
both the original price and the discount string are resolved, the original
price parses to a truthy (non-zero) numeric value and the discount string
holds a digit run, the computed discounted price equals the original's
numeric value times (1 − pct/100), rounded to 2 decimals and formatted as
"AED " followed by the value, with pct the first digit run of the discount
string. -/
theorem discounted_price_computed_spec (jparse : String → Option (List String))
    (url : String) (soup : AmazonSoup) (v : Dec) (ds : String)
    (h1 : discounted_price_method1 soup = none)
    (h2 : discounted_price_method2 soup = none)
    (h3 : discounted_price_method3 soup = none)
    (ho : soup.originalPriceElem.getD "Not found" ≠ "Not found")
    (hd : soup.savingsPercentage.getD "Not found" ≠ "Not found")
    (hv : extract_price_numeric (soup.originalPriceElem.getD "Not found") = some v)
    (hvz : v.num ≠ 0)
    (hds : firstDigitRun (soup.savingsPercentage.getD "Not found") = some ds) :
    (extract_deal_details jparse url soup).discounted_price =
      "AED " ++ formatQ2 (v.toRat * (1 - (digitsToNat ds.data : ℚ) / 100)) := by
  rw [extract_deal_details_discounted_price, ← computeDiscountedPrice_eq]
  simp [amazon_discounted_price_of, h1, h2, h3, discounted_price_method4,
    ho, hd, hv, hds, hvz]

/-- C3, witness: original "AED 100.00" with discount "20% off" computes
"AED 80.00". -/
theorem discounted_price_computed_spec_witness :
    (extract_deal_details (fun _ => none) "u"
        { originalPriceElem := some "AED 100.00",
          savingsPercentage := some "20% off" }).discounted_price
      = "AED 80.00" := by
  have h := discounted_price_computed_spec (fun _ => none) "u"
      { originalPriceElem := some "AED 100.00", savingsPercentage := some "20% off" }
      ⟨10000, 2⟩ "20" (by decide) (by decide) (by decide) (by decide) (by decide)
      (by decide) (by decide) (by decide)
  rw [h]
  have hdig : digitsToNat ("20" : String).data = 20 := by decide
  rw [hdig]
  have hval : Dec.toRat ⟨10000, 2⟩ * (1 - ((20 : ℕ) : ℚ) / 100) = ((80 : ℤ) : ℚ) := by
    norm_num [Dec.toRat]
  rw [hval]
  unfold formatQ2
  rw [show (((80 : ℤ) : ℚ) * 100) = ((8000 : ℤ) : ℚ) by norm_num, roundHalfEvenQ_intCast]
  decide

end DealsExtractor
